import Mathlib

/-!
Verification of the MCP message model and transport layer of the
goldentooth agent (src/mcp/protocol.rs, src/mcp/transport.rs).

The JSON values exchanged on the wire are modelled by an inductive `Json`
tree.  Numbers are modelled as integers (the protocol structures only use
integer ids and integer error codes; non-integer numerals do not occur in
any property considered here).  Serde's derived serializers and the
`#[serde(untagged)]` deserializers are translated field by field:
a struct serializes its fields in declaration order, skipping an `Option`
field that is `none`; deserialization of a struct from an object looks the
required fields up by name, ignores unknown fields, and an untagged enum
tries its variants in declaration order, returning the first success.
-/

namespace Goldentooth

/-- JSON value trees (serde_json::Value, numbers restricted to integers). -/
inductive Json where
  | null : Json
  | bool : Bool → Json
  | num : Int → Json
  | str : String → Json
  | arr : List Json → Json
  | obj : List (String × Json) → Json

/-- JSON-RPC request id (protocol.rs `RequestId`): an untagged union of a
string and a 64-bit signed integer. -/
inductive RequestId where
  | string : String → RequestId
  | number : Int → RequestId
deriving DecidableEq, Repr

/-- protocol.rs `JsonRpcRequest`. -/
structure JsonRpcRequest where
  jsonrpc : String
  id : RequestId
  method : String
  params : Option Json

/-- protocol.rs `JsonRpcError` (code is an i32 on the wire). -/
structure JsonRpcError where
  code : Int
  message : String
  data : Option Json

/-- protocol.rs `ResponseResult`: untagged union of a success payload and
an error object, flattened into the response. -/
inductive ResponseResult where
  | success : Json → ResponseResult
  | error : JsonRpcError → ResponseResult

/-- protocol.rs `JsonRpcResponse`. -/
structure JsonRpcResponse where
  jsonrpc : String
  id : RequestId
  result : ResponseResult

/-- protocol.rs `JsonRpcNotification`. -/
structure JsonRpcNotification where
  jsonrpc : String
  method : String
  params : Option Json

/-- protocol.rs `JsonRpcMessage`: the untagged envelope union, variants in
declaration order Request, Response, Notification. -/
inductive JsonRpcMessage where
  | request : JsonRpcRequest → JsonRpcMessage
  | response : JsonRpcResponse → JsonRpcMessage
  | notification : JsonRpcNotification → JsonRpcMessage

/-! ### Serialization to JSON trees -/

/-- Serialize a `RequestId` (untagged: a string or a number). -/
def RequestId.toJson : RequestId → Json
  | .string s => .str s
  | .number n => .num n

/-- Field list contributed by an `Option` field carrying
`#[serde(skip_serializing_if = "Option::is_none")]`. -/
def optField (k : String) : Option Json → List (String × Json)
  | none => []
  | some v => [(k, v)]

/-- Serialize a request: fields in declaration order, `params` omitted
when absent. -/
def JsonRpcRequest.toJson (r : JsonRpcRequest) : Json :=
  .obj ([("jsonrpc", .str r.jsonrpc), ("id", r.id.toJson),
         ("method", .str r.method)] ++ optField "params" r.params)

/-- Serialize an error object: `data` omitted when absent. -/
def JsonRpcError.toJson (e : JsonRpcError) : Json :=
  .obj ([("code", .num e.code), ("message", .str e.message)]
        ++ optField "data" e.data)

/-- Fields contributed by the flattened `ResponseResult`. -/
def ResponseResult.fields : ResponseResult → List (String × Json)
  | .success v => [("result", v)]
  | .error e => [("error", e.toJson)]

/-- Serialize a response: the `ResponseResult` is flattened into the
object after `jsonrpc` and `id`. -/
def JsonRpcResponse.toJson (r : JsonRpcResponse) : Json :=
  .obj ([("jsonrpc", .str r.jsonrpc), ("id", r.id.toJson)]
        ++ r.result.fields)

/-- Serialize a notification. -/
def JsonRpcNotification.toJson (n : JsonRpcNotification) : Json :=
  .obj ([("jsonrpc", .str n.jsonrpc), ("method", .str n.method)]
        ++ optField "params" n.params)

/-- Serialize an envelope (untagged: just the variant's serialization). -/
def JsonRpcMessage.toJson : JsonRpcMessage → Json
  | .request r => r.toJson
  | .response r => r.toJson
  | .notification n => n.toJson

/-! ### Deserialization from JSON trees

Serde's derived `Deserialize` for a struct pulls each declared field out
of the object by name and ignores unknown fields; an `Option` field is
`none` when the field is missing or `null`.  An untagged enum tries its
variants in declaration order. -/

/-- Look a field up by name (first occurrence). -/
def jlookup : List (String × Json) → String → Option Json
  | [], _ => none
  | (k, v) :: rest, key => if k = key then some v else jlookup rest key

/-- Deserialize a JSON string. -/
def asString : Json → Option String
  | .str s => some s
  | _ => none

/-- Smallest i64. -/
def i64Min : Int := -(2 ^ 63)

/-- Largest i64. -/
def i64Max : Int := 2 ^ 63 - 1

/-- Deserialize a `RequestId`: untagged, a string first, then an i64. -/
def RequestId.fromJson : Json → Option RequestId
  | .str s => some (.string s)
  | .num n => if i64Min ≤ n ∧ n ≤ i64Max then some (.number n) else none
  | _ => none

/-- Deserialize an i32 (the error `code` field). -/
def asI32 : Json → Option Int
  | .num n => if -(2 ^ 31) ≤ n ∧ n ≤ 2 ^ 31 - 1 then some n else none
  | _ => none

/-- Value of an `Option<Value>` field: `none` when missing or `null`. -/
def optValueField (kvs : List (String × Json)) (k : String) : Option Json :=
  match jlookup kvs k with
  | none => none
  | some .null => none
  | some v => some v

/-- Deserialize a `JsonRpcRequest` from a JSON tree. -/
def JsonRpcRequest.fromJson : Json → Option JsonRpcRequest
  | .obj kvs => do
    let jr ← jlookup kvs "jsonrpc" >>= asString
    let i ← jlookup kvs "id" >>= RequestId.fromJson
    let m ← jlookup kvs "method" >>= asString
    some ⟨jr, i, m, optValueField kvs "params"⟩
  | _ => none

/-- Deserialize a `JsonRpcError` from a JSON tree. -/
def JsonRpcError.fromJson : Json → Option JsonRpcError
  | .obj kvs => do
    let c ← jlookup kvs "code" >>= asI32
    let m ← jlookup kvs "message" >>= asString
    some ⟨c, m, optValueField kvs "data"⟩
  | _ => none

/-- Deserialize the flattened `ResponseResult` from the response's fields:
untagged, the `Success` variant (a `result` field, any value) is tried
first, then the `Error` variant (a well-formed `error` object). -/
def ResponseResult.fromFields (kvs : List (String × Json)) :
    Option ResponseResult :=
  match jlookup kvs "result" with
  | some v => some (.success v)
  | none =>
    match jlookup kvs "error" with
    | some e => (JsonRpcError.fromJson e).map .error
    | none => none

/-- Deserialize a `JsonRpcResponse` from a JSON tree. -/
def JsonRpcResponse.fromJson : Json → Option JsonRpcResponse
  | .obj kvs => do
    let jr ← jlookup kvs "jsonrpc" >>= asString
    let i ← jlookup kvs "id" >>= RequestId.fromJson
    let res ← ResponseResult.fromFields kvs
    some ⟨jr, i, res⟩
  | _ => none

/-- Deserialize a `JsonRpcNotification` from a JSON tree. -/
def JsonRpcNotification.fromJson : Json → Option JsonRpcNotification
  | .obj kvs => do
    let jr ← jlookup kvs "jsonrpc" >>= asString
    let m ← jlookup kvs "method" >>= asString
    some ⟨jr, m, optValueField kvs "params"⟩
  | _ => none

/-- Deserialize an envelope: untagged, variants tried in declaration
order — Request, then Response, then Notification. -/
def JsonRpcMessage.fromJson (j : Json) : Option JsonRpcMessage :=
  match JsonRpcRequest.fromJson j with
  | some r => some (.request r)
  | none =>
    match JsonRpcResponse.fromJson j with
    | some r => some (.response r)
    | none => (JsonRpcNotification.fromJson j).map .notification

/-! ### JSON text rendering (serde_json::to_string, compact form) -/

/-- Escape one character of a JSON string literal. -/
def escChar (c : Char) : List Char :=
  if c = '"' then ['\\', '"']
  else if c = '\\' then ['\\', '\\']
  else if c = '\n' then ['\\', 'n']
  else if c = '\t' then ['\\', 't']
  else if c = '\r' then ['\\', 'r']
  else [c]

/-- Render a JSON string literal with its quotes. -/
def renderStringLit (s : String) : String :=
  "\"" ++ String.mk (s.data.foldr (fun c acc => escChar c ++ acc) []) ++ "\""

mutual

/-- Render a JSON tree to compact text. -/
def Json.render : Json → String
  | .null => "null"
  | .bool true => "true"
  | .bool false => "false"
  | .num n => toString n
  | .str s => renderStringLit s
  | .arr xs => "[" ++ Json.renderElems xs ++ "]"
  | .obj kvs => "\x7b" ++ Json.renderMembers kvs ++ "\x7d"

/-- Render array elements, comma separated. -/
def Json.renderElems : List Json → String
  | [] => ""
  | [x] => Json.render x
  | x :: rest => Json.render x ++ "," ++ Json.renderElems rest

/-- Render object members, comma separated. -/
def Json.renderMembers : List (String × Json) → String
  | [] => ""
  | [(k, v)] => renderStringLit k ++ ":" ++ Json.render v
  | (k, v) :: rest =>
    renderStringLit k ++ ":" ++ Json.render v ++ "," ++ Json.renderMembers rest

end

/-! ### JSON text parsing (serde_json::from_str)

A fuel-bounded recursive-descent parser over the character list.  The
fuel only bounds nesting of the grammar's recursion; the top-level entry
supplies more fuel than any input of its length can consume. -/

/-- ASCII whitespace (skipped between tokens, and by `str::trim`). -/
def isWsChar (c : Char) : Bool :=
  c == ' ' || c == '\n' || c == '\t' || c == '\r'

/-- Drop leading whitespace. -/
def skipWs : List Char → List Char
  | [] => []
  | c :: rest => if isWsChar c then skipWs rest else c :: rest

/-- Value of a hexadecimal digit. -/
def hexVal (c : Char) : Option Nat :=
  if '0' ≤ c ∧ c ≤ '9' then some (c.toNat - '0'.toNat)
  else if 'a' ≤ c ∧ c ≤ 'f' then some (c.toNat - 'a'.toNat + 10)
  else if 'A' ≤ c ∧ c ≤ 'F' then some (c.toNat - 'A'.toNat + 10)
  else none

/-- Parse the body of a string literal (opening quote already consumed),
handling the JSON escapes. -/
def parseStringBody : List Char → List Char → Option (String × List Char)
  | [], _ => none
  | '"' :: rest, acc => some (String.mk acc.reverse, rest)
  | '\\' :: 'u' :: h1 :: h2 :: h3 :: h4 :: rest, acc => do
    let a ← hexVal h1
    let b ← hexVal h2
    let c ← hexVal h3
    let d ← hexVal h4
    parseStringBody rest (Char.ofNat (((a * 16 + b) * 16 + c) * 16 + d) :: acc)
  | '\\' :: e :: rest, acc =>
    if e = '"' then parseStringBody rest ('"' :: acc)
    else if e = '\\' then parseStringBody rest ('\\' :: acc)
    else if e = '/' then parseStringBody rest ('/' :: acc)
    else if e = 'n' then parseStringBody rest ('\n' :: acc)
    else if e = 't' then parseStringBody rest ('\t' :: acc)
    else if e = 'r' then parseStringBody rest ('\r' :: acc)
    else if e = 'b' then parseStringBody rest (Char.ofNat 8 :: acc)
    else if e = 'f' then parseStringBody rest (Char.ofNat 12 :: acc)
    else none
  | c :: rest, acc => parseStringBody rest (c :: acc)

/-- Accumulate decimal digits into a number. -/
def digitsToNat : List Char → Nat → Nat
  | [], acc => acc
  | c :: rest, acc => digitsToNat rest (acc * 10 + (c.toNat - '0'.toNat))

/-- Parse an integer numeral (a fraction or exponent is out of the
integer model's scope and is rejected). -/
def parseNumber (cs : List Char) : Option (Json × List Char) :=
  let p := match cs with
    | '-' :: rest => (true, rest)
    | _ => (false, cs)
  let q := p.2.span (·.isDigit)
  if q.1.isEmpty then none
  else
    match q.2 with
    | '.' :: _ => none
    | 'e' :: _ => none
    | 'E' :: _ => none
    | _ =>
      let n : Int := digitsToNat q.1 0
      some (.num (if p.1 then -n else n), q.2)

mutual

/-- Parse one JSON value. -/
def parseVal : Nat → List Char → Option (Json × List Char)
  | 0, _ => none
  | fuel + 1, cs =>
    match skipWs cs with
    | 'n' :: 'u' :: 'l' :: 'l' :: rest => some (.null, rest)
    | 't' :: 'r' :: 'u' :: 'e' :: rest => some (.bool true, rest)
    | 'f' :: 'a' :: 'l' :: 's' :: 'e' :: rest => some (.bool false, rest)
    | '"' :: rest => (parseStringBody rest []).map fun p => (.str p.1, p.2)
    | '[' :: rest =>
      (match skipWs rest with
       | ']' :: rest2 => some (.arr [], rest2)
       | _ => (parseElems fuel rest).map fun p => (.arr p.1, p.2))
    | '\x7b' :: rest =>
      (match skipWs rest with
       | '\x7d' :: rest2 => some (.obj [], rest2)
       | _ => (parseMembers fuel rest).map fun p => (.obj p.1, p.2))
    | c :: rest =>
      if c = '-' ∨ c.isDigit then parseNumber (c :: rest) else none
    | [] => none

/-- Parse the elements of a non-empty array up to `]`. -/
def parseElems : Nat → List Char → Option (List Json × List Char)
  | 0, _ => none
  | fuel + 1, cs => do
    let p ← parseVal fuel cs
    match skipWs p.2 with
    | ',' :: rest => (parseElems fuel rest).map fun q => (p.1 :: q.1, q.2)
    | ']' :: rest => some ([p.1], rest)
    | _ => none

/-- Parse the members of a non-empty object up to the closing brace. -/
def parseMembers : Nat → List Char → Option (List (String × Json) × List Char)
  | 0, _ => none
  | fuel + 1, cs =>
    match skipWs cs with
    | '"' :: rest => do
      let k ← parseStringBody rest []
      match skipWs k.2 with
      | ':' :: rest2 => do
        let v ← parseVal fuel rest2
        match skipWs v.2 with
        | ',' :: rest3 =>
          (parseMembers fuel rest3).map fun q => ((k.1, v.1) :: q.1, q.2)
        | '\x7d' :: rest3 => some ([(k.1, v.1)], rest3)
        | _ => none
      | _ => none
    | _ => none

end

/-- Parse a whole JSON document: one value, then only trailing
whitespace (serde_json::from_str rejects trailing garbage). -/
def parseJsonText (s : String) : Option Json :=
  match parseVal (2 * s.length + 4) s.data with
  | some (j, rest) => if (skipWs rest).isEmpty then some j else none
  | none => none

/-- `serde_json::from_str::<JsonRpcMessage>`: JSON text to tree, then the
untagged envelope match. -/
def fromStr (s : String) : Option JsonRpcMessage :=
  (parseJsonText s).bind JsonRpcMessage.fromJson

/-- transport.rs line 124: `line.trim().starts_with('{')` — whether the
line, after trimming leading whitespace, opens a JSON object. -/
def startsWithBrace (line : String) : Bool :=
  match skipWs line.data with
  | c :: _ => c == '\x7b'
  | [] => false

/-! ### The outstanding-request table

`pending_requests: HashMap<RequestId, oneshot::Sender<JsonRpcResponse>>`.
A sender is represented by a `Token` naming the waiting caller.  The real
table is a hash map with unique keys; it is modelled as an association
list whose operations keep keys unique. -/

/-- A token naming one waiting caller's oneshot completion slot. -/
abbrev Token := Nat

/-- `HashMap::get`/`remove` lookup of the slot registered for an id. -/
def lookupPending : List (RequestId × Token) → RequestId → Option Token
  | [], _ => none
  | (i, t) :: rest, id => if i = id then some t else lookupPending rest id

/-- `HashMap::remove` — drop the entry for the id. -/
def removePending (t : List (RequestId × Token)) (id : RequestId) :
    List (RequestId × Token) :=
  t.filter (fun e => e.1 != id)

/-- `HashMap::insert` — add the slot, replacing (and thereby dropping
the sender of) any slot already present for the id; the second component
is the evicted slot. -/
def insertPending (t : List (RequestId × Token)) (id : RequestId)
    (tok : Token) : List (RequestId × Token) × Option Token :=
  ((id, tok) :: removePending t id, lookupPending t id)

/-! ### The stdio reader task (transport.rs 115–158) -/

/-- One iteration of the stdio reader loop on one line: a line that does
not open a JSON object is skipped; a line parsing as a Response is
delivered to the slot matching its id (which removes the slot); an
unmatched id is logged and dropped; a Notification, a server Request, or
a parse failure leaves the table unchanged and delivers nothing.  The
function is total: no input raises an error. -/
def readerStep (pending : List (RequestId × Token)) (line : String) :
    List (RequestId × Token) × Option (Token × JsonRpcResponse) :=
  if startsWithBrace line = false then (pending, none)
  else
    match fromStr line with
    | some (.response r) =>
      match lookupPending pending r.id with
      | some tok => (removePending pending r.id, some (tok, r))
      | none => (pending, none)
    | some (.notification _) => (pending, none)
    | some (.request _) => (pending, none)
    | none => (pending, none)

/-- Run the reader over a sequence of lines, collecting the deliveries
made to waiting slots, in order. -/
def readerRun (pending : List (RequestId × Token)) :
    List String → List (RequestId × Token) × List (Token × JsonRpcResponse)
  | [] => (pending, [])
  | line :: rest =>
    let p := readerStep pending line
    let q := readerRun p.1 rest
    (q.1, p.2.toList ++ q.2)

/-- A line the reader discards as non-protocol noise: it does not open a
JSON object after trimming, or it fails to parse as any envelope shape. -/
def noiseLine (line : String) : Bool :=
  !startsWithBrace line || (fromStr line).isNone

/-- One `data:` payload handled by the SSE task (transport.rs 371–414):
empty and `[DONE]` payloads are skipped; otherwise the payload is parsed
and a Response is delivered to the matching slot exactly as in the stdio
reader. -/
def sseDataStep (pending : List (RequestId × Token)) (data : String) :
    List (RequestId × Token) × Option (Token × JsonRpcResponse) :=
  if data == "" || data == "[DONE]" then (pending, none)
  else
    match fromStr data with
    | some (.response r) =>
      match lookupPending pending r.id with
      | some tok => (removePending pending r.id, some (tok, r))
      | none => (pending, none)
    | some (.notification _) => (pending, none)
    | some (.request _) => (pending, none)
    | none => (pending, none)

/-! ### Transport errors, actions and await outcomes -/

/-- error.rs `TransportError`, restricted to the variants the transport
layer constructs.  The payload of the `Http` variant (a reqwest error)
is reduced to the offending status code, 0 for a failed send. -/
inductive TransportError where
  | connectionFailed : String → TransportError
  | connectionClosed : TransportError
  | processSpawnFailed : TransportError
  | http : Nat → TransportError
  | timeout : TransportError
deriving DecidableEq, Repr

/-- The observable side effects of one transport operation, in program
order: registering a completion slot, writing bytes to the child's
stdin, and issuing HTTP GET/POST exchanges (url, headers, body). -/
inductive Action where
  | insertSlot : RequestId → Action
  | writeBytes : String → Action
  | httpGet : String → List (String × String) → Action
  | httpPost : String → List (String × String) → String → Action
deriving DecidableEq, Repr

/-- How a caller's bounded wait on its completion slot ends: the reader
or SSE task fulfilled the slot with a response (having removed it from
the table when delivering); the sender was dropped unfulfilled (the slot
was evicted by a replacing insert, or cleared by close); or the
30-second timeout fired first. -/
inductive AwaitOutcome where
  | fulfilled : JsonRpcResponse → AwaitOutcome
  | senderDropped : AwaitOutcome
  | timedOut : AwaitOutcome

/-! ### StdioTransport -/

/-- The mutable state of a `StdioTransport`: the connected flag, whether
the stdin handle is held, whether the child process is held, and the
outstanding-request table. -/
structure StdioState where
  connected : Bool
  stdinOpen : Bool
  processRunning : Bool
  pending : List (RequestId × Token)

/-- `StdioTransport::new` — nothing spawned, empty table, not connected. -/
def stdioNew : StdioState :=
  { connected := false, stdinOpen := false, processRunning := false,
    pending := [] }

/-- `StdioTransport::send_request` (169–214) as a function of the state
and of how the wait on the slot ends.  The connected check comes first;
then the slot is registered, the serialized line written, and the
bounded wait entered.  On a fulfilled wait the slot was already removed
by the reader at delivery; on a dropped sender or a timeout the caller
removes its own slot and reports ConnectionClosed or Timeout. -/
def stdioSendRequest (s : StdioState) (req : JsonRpcRequest) (tok : Token)
    (outcome : AwaitOutcome) :
    StdioState × List Action × Except TransportError JsonRpcResponse :=
  if s.connected = false then (s, [], .error .connectionClosed)
  else
    let pending1 := (insertPending s.pending req.id tok).1
    let s1 : StdioState := { s with pending := pending1 }
    if s.stdinOpen = false then
      (s1, [.insertSlot req.id], .error .connectionClosed)
    else
      let line := Json.render (JsonRpcMessage.toJson (.request req)) ++ "\n"
      let acts := [Action.insertSlot req.id, Action.writeBytes line]
      match outcome with
      | .fulfilled r =>
        ({ s1 with pending := removePending pending1 req.id }, acts, .ok r)
      | .senderDropped =>
        ({ s1 with pending := removePending pending1 req.id }, acts,
         .error .connectionClosed)
      | .timedOut =>
        ({ s1 with pending := removePending pending1 req.id }, acts,
         .error .timeout)

/-- `StdioTransport::send_notification` (216–240): connected check, then
one serialized line written; the table is never consulted. -/
def stdioSendNotification (s : StdioState) (note : JsonRpcNotification) :
    StdioState × List Action × Except TransportError Unit :=
  if s.connected = false then (s, [], .error .connectionClosed)
  else if s.stdinOpen = false then (s, [], .error .connectionClosed)
  else
    let line := Json.render (JsonRpcMessage.toJson (.notification note)) ++ "\n"
    (s, [.writeBytes line], .ok ())

/-- `StdioTransport::close` (242–283): clear the connected flag, drop
stdin, wait for (or kill) the child, abort the reader, clear the table —
dropping every pending sender — and return Ok unconditionally, on every
state including one that was never started. -/
def stdioClose (s : StdioState) : StdioState × Except TransportError Unit :=
  ({ s with
      connected := false
      stdinOpen := false
      processRunning := false
      pending := [] },
   .ok ())

/-! ### HttpTransport -/

/-- The mutable state of an `HttpTransport`: the two endpoint urls fixed
at construction, the connected flag, whether the SSE handler task is
held, and the outstanding-request table. -/
structure HttpState where
  endpointUrl : String
  sseEndpointUrl : String
  connected : Bool
  sseActive : Bool
  pending : List (RequestId × Token)

/-- `str::ends_with('/')`. -/
def lastIsSlash (s : String) : Bool := s.data.getLast? == some '/'

/-- `HttpTransport::new` (302–318): derive the SSE url from the
endpoint url. -/
def httpNew (endpoint : String) : HttpState :=
  { endpointUrl := endpoint,
    sseEndpointUrl :=
      if lastIsSlash endpoint then endpoint ++ "sse" else endpoint ++ "/sse",
    connected := false, sseActive := false, pending := [] }

/-- `HttpTransport::goldentooth_server` (321–329). -/
def httpGoldentoothServer (baseUrl : String) : HttpState :=
  httpNew (if lastIsSlash baseUrl then baseUrl ++ "mcp" else baseUrl ++ "/mcp")

/-- The result of one HTTP exchange as the transport sees it: a resolved
response carrying a status code, or a failed send. -/
inductive HttpOutcome where
  | ok : Nat → HttpOutcome
  | failed : HttpOutcome

/-- `reqwest::StatusCode::is_success`. -/
def statusIsSuccess (st : Nat) : Bool := 200 ≤ st && st < 300

/-- `HttpTransport::start` (436–471) as a function of the probe's
outcome: a GET of the endpoint url is issued; a send failure or a
non-success status yields ConnectionFailed with the state untouched; on
success the SSE handler is spawned — a GET of the sse endpoint with an
`Accept: text/event-stream` header — and the connected flag set. -/
def httpStart (s : HttpState) (probe : HttpOutcome) :
    HttpState × List Action × Except TransportError Unit :=
  match probe with
  | .failed =>
    (s, [.httpGet s.endpointUrl []],
     .error (.connectionFailed "Failed to connect"))
  | .ok st =>
    if statusIsSuccess st = false then
      (s, [.httpGet s.endpointUrl []],
       .error (.connectionFailed "Server returned status"))
    else
      ({ s with connected := true, sseActive := true },
       [.httpGet s.endpointUrl [],
        .httpGet s.sseEndpointUrl
          [("Accept", "text/event-stream"), ("Cache-Control", "no-cache")]],
       .ok ())

/-- `HttpTransport::send_request` (473–538): after the connected check
the slot is registered and the serialized request POSTed with only a
`Content-Type: application/json` header; the POST's response body
(`_respBody`) is received but never read, exactly as in the code, which
only checks the status.  On a send failure or non-success status the
slot is removed and an Http error returned; on a success status the
result is whatever the wait on the slot — fed by the separate SSE
channel — produces. -/
def httpSendRequest (s : HttpState) (req : JsonRpcRequest) (tok : Token)
    (post : HttpOutcome) (_respBody : String) (outcome : AwaitOutcome) :
    HttpState × List Action × Except TransportError JsonRpcResponse :=
  if s.connected = false then (s, [], .error .connectionClosed)
  else
    let pending1 := (insertPending s.pending req.id tok).1
    let body := Json.render (JsonRpcMessage.toJson (.request req))
    let acts := [Action.insertSlot req.id,
                 Action.httpPost s.endpointUrl
                   [("Content-Type", "application/json")] body]
    match post with
    | .failed =>
      ({ s with pending := removePending pending1 req.id }, acts,
       .error (.http 0))
    | .ok st =>
      if statusIsSuccess st = false then
        ({ s with pending := removePending pending1 req.id }, acts,
         .error (.http st))
      else
        match outcome with
        | .fulfilled r =>
          ({ s with pending := removePending pending1 req.id }, acts, .ok r)
        | .senderDropped =>
          ({ s with pending := removePending pending1 req.id }, acts,
           .error .connectionClosed)
        | .timedOut =>
          ({ s with pending := removePending pending1 req.id }, acts,
           .error .timeout)

/-- `HttpTransport::send_notification` (540–570): connected check, one
POST with only a Content-Type header; the correlation table is never
consulted. -/
def httpSendNotification (s : HttpState) (note : JsonRpcNotification)
    (post : HttpOutcome) :
    HttpState × List Action × Except TransportError Unit :=
  if s.connected = false then (s, [], .error .connectionClosed)
  else
    let body := Json.render (JsonRpcMessage.toJson (.notification note))
    let acts := [Action.httpPost s.endpointUrl
                   [("Content-Type", "application/json")] body]
    match post with
    | .failed => (s, acts, .error (.http 0))
    | .ok st =>
      if statusIsSuccess st = false then (s, acts, .error (.http st))
      else (s, acts, .ok ())

/-- `HttpTransport::close` (572–590): clear the connected flag, abort
the SSE handler, clear the table — dropping every pending sender — and
return Ok unconditionally. -/
def httpClose (s : HttpState) : HttpState × Except TransportError Unit :=
  ({ s with connected := false, sseActive := false, pending := [] }, .ok ())

/-! ### Validity of message values (spec data model)

The spec's data model calls a message valid when its protocol tag is
"2.0", its id is a string or a 64-bit integer, its error code fits an
i32, and its optional `params` and error `data` payloads, when present,
are structured values (an object or an array), never a bare `null` —
serialization omits absent optional fields rather than emitting nulls. -/

/-- A structured JSON value: an object or an array. -/
def Json.isStructured : Json → Bool
  | .obj _ => true
  | .arr _ => true
  | _ => false

/-- An optional payload is valid when absent or structured. -/
def structuredOpt : Option Json → Bool
  | none => true
  | some v => v.isStructured

/-- A valid id: any string, or an integer fitting an i64. -/
def RequestId.validb : RequestId → Bool
  | .string _ => true
  | .number n => decide (i64Min ≤ n ∧ n ≤ i64Max)

/-- A valid request per the spec data model. -/
def JsonRpcRequest.validb (r : JsonRpcRequest) : Bool :=
  r.jsonrpc == "2.0" && r.id.validb && structuredOpt r.params

/-- A valid error object per the spec data model. -/
def JsonRpcError.validb (e : JsonRpcError) : Bool :=
  decide (-(2 ^ 31) ≤ e.code ∧ e.code ≤ 2 ^ 31 - 1) && structuredOpt e.data

/-- A valid response outcome. -/
def ResponseResult.validb : ResponseResult → Bool
  | .success _ => true
  | .error e => e.validb

/-- A valid response per the spec data model. -/
def JsonRpcResponse.validb (r : JsonRpcResponse) : Bool :=
  r.jsonrpc == "2.0" && r.id.validb && r.result.validb

/-- A valid notification per the spec data model. -/
def JsonRpcNotification.validb (n : JsonRpcNotification) : Bool :=
  n.jsonrpc == "2.0" && structuredOpt n.params

/-- A valid envelope value. -/
def JsonRpcMessage.validb : JsonRpcMessage → Bool
  | .request r => r.validb
  | .response r => r.validb
  | .notification n => n.validb

/-! ### Helper lemmas -/

/-- Ids round-trip exactly: a string id returns as the string variant, a
numeric id as the numeric variant, with no coercion between the two. -/
theorem RequestId.fromJson_toJson (id : RequestId) (h : id.validb = true) :
    RequestId.fromJson id.toJson = some id := by
  cases id with
  | string s => rfl
  | number n =>
    simp only [validb, decide_eq_true_eq] at h
    simp [toJson, fromJson, h]

/-- A valid request round-trips through its serialization. -/
theorem req_roundtrip (r : JsonRpcRequest) (h : r.validb = true) :
    JsonRpcRequest.fromJson r.toJson = some r := by
  obtain ⟨jr, id, m, params⟩ := r
  simp only [JsonRpcRequest.validb, Bool.and_eq_true, beq_iff_eq] at h
  obtain ⟨⟨hjr, hid⟩, hp⟩ := h
  cases params with
  | none =>
    simp [JsonRpcRequest.toJson, JsonRpcRequest.fromJson, jlookup, optField,
      asString, optValueField, RequestId.fromJson_toJson id hid]
  | some p =>
    cases p <;>
    simp_all [JsonRpcRequest.toJson, JsonRpcRequest.fromJson, jlookup, optField,
      asString, optValueField, structuredOpt, Json.isStructured,
      RequestId.fromJson_toJson id hid]

/-- A valid error object round-trips through its serialization. -/
theorem err_roundtrip (e : JsonRpcError) (h : e.validb = true) :
    JsonRpcError.fromJson e.toJson = some e := by
  obtain ⟨c, msg, dat⟩ := e
  simp only [JsonRpcError.validb, Bool.and_eq_true, decide_eq_true_eq] at h
  obtain ⟨hc, hd⟩ := h
  norm_num at hc
  cases dat with
  | none =>
    simp [JsonRpcError.toJson, JsonRpcError.fromJson, jlookup, optField,
      asString, asI32, optValueField, hc.1, hc.2]
  | some d =>
    cases d <;>
    simp_all [JsonRpcError.toJson, JsonRpcError.fromJson, jlookup, optField,
      asString, asI32, optValueField, structuredOpt, Json.isStructured,
      hc.1, hc.2]

/-- A valid response round-trips through its serialization. -/
theorem resp_roundtrip (r : JsonRpcResponse) (h : r.validb = true) :
    JsonRpcResponse.fromJson r.toJson = some r := by
  obtain ⟨jr, id, res⟩ := r
  simp only [JsonRpcResponse.validb, Bool.and_eq_true, beq_iff_eq] at h
  obtain ⟨⟨hjr, hid⟩, hres⟩ := h
  cases res with
  | success v =>
    simp [JsonRpcResponse.toJson, JsonRpcResponse.fromJson, jlookup,
      ResponseResult.fields, ResponseResult.fromFields, asString,
      RequestId.fromJson_toJson id hid]
  | error e =>
    simp [JsonRpcResponse.toJson, JsonRpcResponse.fromJson, jlookup,
      ResponseResult.fields, ResponseResult.fromFields, asString,
      RequestId.fromJson_toJson id hid,
      err_roundtrip e (by simpa [ResponseResult.validb] using hres)]

/-- A serialized response has no `method` field, so the Request variant
of the untagged union (tried first) fails on it. -/
theorem req_parse_of_resp (r : JsonRpcResponse) :
    JsonRpcRequest.fromJson r.toJson = none := by
  obtain ⟨jr, id, res⟩ := r
  cases res <;>
  cases h : RequestId.fromJson id.toJson <;>
  simp [JsonRpcResponse.toJson, JsonRpcRequest.fromJson, jlookup,
    ResponseResult.fields, asString, h]

/-- A valid notification round-trips through its serialization. -/
theorem note_roundtrip (n : JsonRpcNotification) (h : n.validb = true) :
    JsonRpcNotification.fromJson n.toJson = some n := by
  obtain ⟨jr, m, params⟩ := n
  simp only [JsonRpcNotification.validb, Bool.and_eq_true, beq_iff_eq] at h
  obtain ⟨hjr, hp⟩ := h
  cases params with
  | none =>
    simp [JsonRpcNotification.toJson, JsonRpcNotification.fromJson, jlookup,
      optField, asString, optValueField]
  | some p =>
    cases p <;>
    simp_all [JsonRpcNotification.toJson, JsonRpcNotification.fromJson,
      jlookup, optField, asString, optValueField, structuredOpt,
      Json.isStructured]

/-- A serialized notification has no `id` field, so the Request variant
fails on it. -/
theorem req_parse_of_note (n : JsonRpcNotification) :
    JsonRpcRequest.fromJson n.toJson = none := by
  obtain ⟨jr, m, params⟩ := n
  cases params <;>
  simp [JsonRpcNotification.toJson, JsonRpcRequest.fromJson, jlookup,
    optField, asString]

/-- A serialized notification has no `id` field, so the Response variant
fails on it. -/
theorem resp_parse_of_note (n : JsonRpcNotification) :
    JsonRpcResponse.fromJson n.toJson = none := by
  obtain ⟨jr, m, params⟩ := n
  cases params <;>
  simp [JsonRpcNotification.toJson, JsonRpcResponse.fromJson, jlookup,
    optField, asString]

/-! ### Claim C4 -/

/-- C4: for every valid Request, Response, and Notification value,
serializing it and then parsing the result yields a value equal to the
original; string and numeric ids both round-trip with no coercion
between the two id forms (`RequestId.fromJson_toJson` returns the exact
variant, and equality of the whole envelope value includes the id). -/
theorem serialize_parse_roundtrip (m : JsonRpcMessage)
    (h : m.validb = true) : JsonRpcMessage.fromJson m.toJson = some m := by
  cases m with
  | request r =>
    simp [JsonRpcMessage.toJson, JsonRpcMessage.fromJson,
      req_roundtrip r (by simpa [JsonRpcMessage.validb] using h)]
  | response r =>
    simp [JsonRpcMessage.toJson, JsonRpcMessage.fromJson, req_parse_of_resp r,
      resp_roundtrip r (by simpa [JsonRpcMessage.validb] using h)]
  | notification n =>
    simp [JsonRpcMessage.toJson, JsonRpcMessage.fromJson, req_parse_of_note n,
      resp_parse_of_note n,
      note_roundtrip n (by simpa [JsonRpcMessage.validb] using h)]

/-- Witness for C4: the round-trip evaluated at a string-id request, a
numeric-id success response, and a notification. -/
theorem serialize_parse_roundtrip_witness :
    JsonRpcMessage.fromJson (JsonRpcMessage.toJson
      (.request ⟨"2.0", .string "1", "ping", none⟩)) =
      some (.request ⟨"2.0", .string "1", "ping", none⟩) ∧
    JsonRpcMessage.fromJson (JsonRpcMessage.toJson
      (.response ⟨"2.0", .number 42, .success (.num 7)⟩)) =
      some (.response ⟨"2.0", .number 42, .success (.num 7)⟩) ∧
    JsonRpcMessage.fromJson (JsonRpcMessage.toJson
      (.notification ⟨"2.0", "initialized", none⟩)) =
      some (.notification ⟨"2.0", "initialized", none⟩) :=
  ⟨serialize_parse_roundtrip _ (by decide),
   serialize_parse_roundtrip _ (by decide),
   serialize_parse_roundtrip _ (by decide)⟩

/-! ### Claim C5 -/

/-- All three variants require the `jsonrpc` field, so a payload without
a string `jsonrpc` parses as no envelope at all. -/
theorem req_fail_jr (kvs : List (String × Json))
    (h : (jlookup kvs "jsonrpc" >>= asString) = none) :
    JsonRpcRequest.fromJson (.obj kvs) = none := by
  simp [JsonRpcRequest.fromJson, h]

/-- The Response variant fails without a string `jsonrpc`. -/
theorem resp_fail_jr (kvs : List (String × Json))
    (h : (jlookup kvs "jsonrpc" >>= asString) = none) :
    JsonRpcResponse.fromJson (.obj kvs) = none := by
  simp [JsonRpcResponse.fromJson, h]

/-- The Notification variant fails without a string `jsonrpc`. -/
theorem note_fail_jr (kvs : List (String × Json))
    (h : (jlookup kvs "jsonrpc" >>= asString) = none) :
    JsonRpcNotification.fromJson (.obj kvs) = none := by
  simp [JsonRpcNotification.fromJson, h]

/-- The Request variant fails without a string `method`. -/
theorem req_fail_m (kvs : List (String × Json))
    (h : (jlookup kvs "method" >>= asString) = none) :
    JsonRpcRequest.fromJson (.obj kvs) = none := by
  cases hjr : jlookup kvs "jsonrpc" >>= asString with
  | none => simp [JsonRpcRequest.fromJson, hjr]
  | some jr =>
    cases hid : jlookup kvs "id" >>= RequestId.fromJson with
    | none => simp [JsonRpcRequest.fromJson, hjr, hid]
    | some i => simp [JsonRpcRequest.fromJson, hjr, hid, h]

/-- The Request variant fails without a parseable `id`. -/
theorem req_fail_id (kvs : List (String × Json))
    (h : (jlookup kvs "id" >>= RequestId.fromJson) = none) :
    JsonRpcRequest.fromJson (.obj kvs) = none := by
  cases hjr : jlookup kvs "jsonrpc" >>= asString with
  | none => simp [JsonRpcRequest.fromJson, hjr]
  | some jr => simp [JsonRpcRequest.fromJson, hjr, h]

/-- The Response variant fails without a parseable `id`. -/
theorem resp_fail_id (kvs : List (String × Json))
    (h : (jlookup kvs "id" >>= RequestId.fromJson) = none) :
    JsonRpcResponse.fromJson (.obj kvs) = none := by
  cases hjr : jlookup kvs "jsonrpc" >>= asString with
  | none => simp [JsonRpcResponse.fromJson, hjr]
  | some jr => simp [JsonRpcResponse.fromJson, hjr, h]

/-- The Response variant fails without a `result` field or a well-formed
`error` object. -/
theorem resp_fail_res (kvs : List (String × Json))
    (h : ResponseResult.fromFields kvs = none) :
    JsonRpcResponse.fromJson (.obj kvs) = none := by
  cases hjr : jlookup kvs "jsonrpc" >>= asString with
  | none => simp [JsonRpcResponse.fromJson, hjr]
  | some jr =>
    cases hid : jlookup kvs "id" >>= RequestId.fromJson with
    | none => simp [JsonRpcResponse.fromJson, hjr, hid]
    | some i => simp [JsonRpcResponse.fromJson, hjr, hid, h]

/-- The Notification variant fails without a string `method`. -/
theorem note_fail_m (kvs : List (String × Json))
    (h : (jlookup kvs "method" >>= asString) = none) :
    JsonRpcNotification.fromJson (.obj kvs) = none := by
  cases hjr : jlookup kvs "jsonrpc" >>= asString with
  | none => simp [JsonRpcNotification.fromJson, hjr]
  | some jr => simp [JsonRpcNotification.fromJson, hjr, h]

/-- The untagged union parses as nothing when all three variants fail. -/
theorem msg_none_of_all (j : Json)
    (h1 : JsonRpcRequest.fromJson j = none)
    (h2 : JsonRpcResponse.fromJson j = none)
    (h3 : JsonRpcNotification.fromJson j = none) :
    JsonRpcMessage.fromJson j = none := by
  simp [JsonRpcMessage.fromJson, h1, h2, h3]

/-- The payload `{"jsonrpc":"2.0","id":1,"method":"m","result":5}`,
which contains `id` and `result` together with `method`. -/
def requestWithResultPayload : Json :=
  .obj [("jsonrpc", .str "2.0"), ("id", .num 1), ("method", .str "m"),
        ("result", .num 5)]

/-- C5 counterexample, refuting both universally quantified arms of the
claim that the code violates: the payload
`{"jsonrpc":"2.0","id":1,"method":"m","result":5}` contains `id` and
`result` yet parses as a Request, because the untagged union tries the
Request variant first and serde ignores the unknown `result` field; and
the payload `{"id":1}` contains `id` and neither `result` nor `error`
yet parses as nothing at all — not as a Request — because every variant
also requires its other fields (`jsonrpc`, `method`). -/
theorem envelope_discrimination_counterexample :
    JsonRpcMessage.fromJson requestWithResultPayload =
      some (.request ⟨"2.0", .number 1, "m", none⟩) ∧
    JsonRpcMessage.fromJson (.obj [("id", .num 1)]) = none := by
  exact ⟨rfl, rfl⟩

/-- C5 (amended): discrimination is structural but ordered — the
untagged union tries Request, then Response, then Notification — and
each variant demands its required fields.  A payload with a string
`jsonrpc`, a parseable `id`, and a string `method` parses as Request,
even when `result` or `error` is also present; a payload with
`jsonrpc`, a parseable `id`, no `method`, and a `result` field (or,
failing that, a well-formed `error` object) parses as Response; a
payload with `jsonrpc`, no `id`, and a string `method` parses as
Notification; and a payload missing a required field of every variant —
its `jsonrpc` missing or not a string, or its `method` and its `id`
both failing to parse, or its `method` failing while it has neither a
`result` field nor a well-formed `error` object — parses as nothing. -/
theorem envelope_discrimination :
    (∀ kvs jr idj rid m, jlookup kvs "jsonrpc" = some (.str jr) →
        jlookup kvs "id" = some idj → RequestId.fromJson idj = some rid →
        jlookup kvs "method" = some (.str m) →
        JsonRpcMessage.fromJson (.obj kvs) =
          some (.request ⟨jr, rid, m, optValueField kvs "params"⟩)) ∧
    (∀ kvs jr idj rid v, jlookup kvs "jsonrpc" = some (.str jr) →
        jlookup kvs "id" = some idj → RequestId.fromJson idj = some rid →
        jlookup kvs "method" = none → jlookup kvs "result" = some v →
        JsonRpcMessage.fromJson (.obj kvs) =
          some (.response ⟨jr, rid, .success v⟩)) ∧
    (∀ kvs jr idj rid ej e, jlookup kvs "jsonrpc" = some (.str jr) →
        jlookup kvs "id" = some idj → RequestId.fromJson idj = some rid →
        jlookup kvs "method" = none → jlookup kvs "result" = none →
        jlookup kvs "error" = some ej → JsonRpcError.fromJson ej = some e →
        JsonRpcMessage.fromJson (.obj kvs) =
          some (.response ⟨jr, rid, .error e⟩)) ∧
    (∀ kvs jr m, jlookup kvs "jsonrpc" = some (.str jr) →
        jlookup kvs "id" = none → jlookup kvs "method" = some (.str m) →
        JsonRpcMessage.fromJson (.obj kvs) =
          some (.notification ⟨jr, m, optValueField kvs "params"⟩)) ∧
    (∀ kvs, (jlookup kvs "jsonrpc" >>= asString) = none →
        JsonRpcMessage.fromJson (.obj kvs) = none) ∧
    (∀ kvs, (jlookup kvs "method" >>= asString) = none →
        (jlookup kvs "id" >>= RequestId.fromJson) = none →
        JsonRpcMessage.fromJson (.obj kvs) = none) ∧
    (∀ kvs, (jlookup kvs "method" >>= asString) = none →
        ResponseResult.fromFields kvs = none →
        JsonRpcMessage.fromJson (.obj kvs) = none) := by
  refine ⟨?_, ?_, ?_, ?_, ?_, ?_, ?_⟩
  · intro kvs jr idj rid m h1 h2 h3 h4
    simp [JsonRpcMessage.fromJson, JsonRpcRequest.fromJson, h1, h2, h3, h4,
      asString]
  · intro kvs jr idj rid v h1 h2 h3 h4 h5
    simp [JsonRpcMessage.fromJson, JsonRpcRequest.fromJson,
      JsonRpcResponse.fromJson, ResponseResult.fromFields, h1, h2, h3, h4,
      h5, asString]
  · intro kvs jr idj rid ej e h1 h2 h3 h4 h5 h6 h7
    simp [JsonRpcMessage.fromJson, JsonRpcRequest.fromJson,
      JsonRpcResponse.fromJson, ResponseResult.fromFields, h1, h2, h3, h4,
      h5, h6, h7, asString]
  · intro kvs jr m h1 h2 h3
    simp [JsonRpcMessage.fromJson, JsonRpcRequest.fromJson,
      JsonRpcResponse.fromJson, JsonRpcNotification.fromJson, h1, h2, h3,
      asString]
  · intro kvs h
    exact msg_none_of_all _ (req_fail_jr kvs h) (resp_fail_jr kvs h)
      (note_fail_jr kvs h)
  · intro kvs hm hid
    exact msg_none_of_all _ (req_fail_m kvs hm) (resp_fail_id kvs hid)
      (note_fail_m kvs hm)
  · intro kvs hm hres
    exact msg_none_of_all _ (req_fail_m kvs hm) (resp_fail_res kvs hres)
      (note_fail_m kvs hm)

/-- Witness for C5 (amended), applying the Request arm to the
counterexample payload's field list, the Notification arm to a
notification payload, and the no-jsonrpc failure arm to the bare
`{"id":1}` payload. -/
theorem envelope_discrimination_witness :
    JsonRpcMessage.fromJson requestWithResultPayload =
      some (.request ⟨"2.0", .number 1, "m", none⟩) ∧
    JsonRpcMessage.fromJson
        (.obj [("jsonrpc", .str "2.0"), ("method", .str "initialized")]) =
      some (.notification ⟨"2.0", "initialized", none⟩) ∧
    JsonRpcMessage.fromJson (.obj [("id", .num 1)]) = none :=
  ⟨envelope_discrimination.1
      [("jsonrpc", .str "2.0"), ("id", .num 1), ("method", .str "m"),
       ("result", .num 5)] "2.0" (.num 1) (.number 1) "m"
      rfl rfl (by decide) rfl,
   envelope_discrimination.2.2.2.1
      [("jsonrpc", .str "2.0"), ("method", .str "initialized")]
      "2.0" "initialized" rfl rfl rfl,
   envelope_discrimination.2.2.2.2.1 [("id", .num 1)] rfl⟩

/-! ### Table lemmas and example states -/

/-- Keys of the outstanding-request table. -/
def pendingKeys (t : List (RequestId × Token)) : List RequestId :=
  t.map Prod.fst

/-- After removal an id has no slot. -/
theorem lookupPending_removePending (t : List (RequestId × Token))
    (id : RequestId) : lookupPending (removePending t id) id = none := by
  induction t with
  | nil => rfl
  | cons e rest ih =>
    rcases e with ⟨i, tk⟩
    by_cases h : i = id
    · simpa [removePending, List.filter_cons, h] using ih
    · simpa [removePending, List.filter_cons, h, lookupPending] using ih

/-- The freshly inserted slot is found. -/
theorem lookupPending_insertPending (t : List (RequestId × Token))
    (id : RequestId) (tok : Token) :
    lookupPending (insertPending t id tok).1 id = some tok := by
  simp [insertPending, lookupPending]

/-- Removal keeps the table's keys distinct. -/
theorem pendingKeys_removePending_nodup (t : List (RequestId × Token))
    (id : RequestId) (h : (pendingKeys t).Nodup) :
    (pendingKeys (removePending t id)).Nodup := by
  have hsub : List.Sublist (pendingKeys (removePending t id)) (pendingKeys t) :=
    (List.filter_sublist t).map Prod.fst
  exact h.sublist hsub

/-- The removed id is absent from the keys afterwards. -/
theorem not_mem_pendingKeys_removePending (t : List (RequestId × Token))
    (id : RequestId) : id ∉ pendingKeys (removePending t id) := by
  intro hmem
  simp only [pendingKeys, removePending, List.mem_map, List.mem_filter] at hmem
  obtain ⟨e, ⟨_, hne⟩, heq⟩ := hmem
  rw [heq] at hne
  simp at hne

/-- Insertion keeps the table's keys distinct. -/
theorem pendingKeys_insertPending_nodup (t : List (RequestId × Token))
    (id : RequestId) (tok : Token) (h : (pendingKeys t).Nodup) :
    (pendingKeys (insertPending t id tok).1).Nodup := by
  simp only [insertPending, pendingKeys, List.map_cons]
  exact List.nodup_cons.mpr
    ⟨not_mem_pendingKeys_removePending t id,
     pendingKeys_removePending_nodup t id h⟩

/-- A stdio transport in the Running state with an empty table. -/
def stdioRunning : StdioState :=
  { connected := true, stdinOpen := true, processRunning := true,
    pending := [] }

/-- An HTTP transport for endpoint `http://x/mcp` after a successful
start. -/
def httpConn : HttpState :=
  { httpNew "http://x/mcp" with connected := true, sseActive := true }

/-- A concrete ping request with string id "1". -/
def pingReq : JsonRpcRequest := ⟨"2.0", .string "1", "ping", none⟩

/-- A concrete success response with string id "1". -/
def pongResp : JsonRpcResponse := ⟨"2.0", .string "1", .success (.num 5)⟩

/-! ### Claim C1 -/

/-- The SSE-framed body text of a `pongResp` event, used to show the
POST's body plays no role in the result. -/
def sseFramedBody : String :=
  "data: \x7b\"jsonrpc\":\"2.0\",\"id\":\"1\",\"result\":5\x7d\n\n"

/-- C1 counterexample: at a concrete connected transport and request,
the one POST issued by `HttpTransport::send_request` carries only a
`Content-Type: application/json` header — no `Accept: text/event-stream`
and no Authorization (the transport has no token support at all) — and
the result is not determined by that POST's response body: with the body
held at an SSE-framed Response text, a timed-out wait still yields a
Timeout failure, while the very same call with an empty body and a wait
fulfilled through the shared correlation table yields the Response.  The
claim's assertion that no shared correlation table or other channel is
consulted is false of the code, which resolves every request through
`pending_requests`, fed by a separate SSE GET connection. -/
theorem http_send_request_counterexample :
    (httpSendRequest httpConn pingReq 0 (.ok 200) sseFramedBody
        .timedOut).2.1 =
      [.insertSlot (.string "1"),
       .httpPost "http://x/mcp" [("Content-Type", "application/json")]
         "\x7b\"jsonrpc\":\"2.0\",\"id\":\"1\",\"method\":\"ping\"\x7d"] ∧
    (httpSendRequest httpConn pingReq 0 (.ok 200) sseFramedBody
        .timedOut).2.2 = .error .timeout ∧
    (httpSendRequest httpConn pingReq 0 (.ok 200) ""
        (.fulfilled pongResp)).2.2 = .ok pongResp := by
  refine ⟨rfl, rfl, rfl⟩

/-- C1 (amended): for every connected state, `send_request` issues
exactly one POST, to the fixed endpoint url, carrying only a
`Content-Type: application/json` header (no Accept header; there is no
token state, hence never an Authorization header) with the serialized
request as body; the POST's response body is never read — the outcome is
the same for any two bodies — and the result is decided by the POST's
status and the wait on the shared correlation table's slot, fed by the
separate SSE channel: a failed send or non-success status removes the
slot and yields an Http failure; on a success status a fulfilled wait
yields exactly the fulfilling Response, a dropped sender yields
ConnectionClosed, and expiry yields Timeout. -/
theorem http_send_request_behavior (s : HttpState) (req : JsonRpcRequest)
    (tok : Token) (post : HttpOutcome) (b1 b2 : String)
    (outcome : AwaitOutcome) (r : JsonRpcResponse) (st : Nat)
    (hc : s.connected = true) :
    (httpSendRequest s req tok post b1 outcome).2.1 =
      [.insertSlot req.id,
       .httpPost s.endpointUrl [("Content-Type", "application/json")]
         (Json.render (JsonRpcMessage.toJson (.request req)))] ∧
    httpSendRequest s req tok post b1 outcome =
      httpSendRequest s req tok post b2 outcome ∧
    (post = .failed →
      (httpSendRequest s req tok post b1 outcome).2.2 = .error (.http 0) ∧
      lookupPending (httpSendRequest s req tok post b1 outcome).1.pending
        req.id = none) ∧
    (post = .ok st → statusIsSuccess st = false →
      (httpSendRequest s req tok post b1 outcome).2.2 = .error (.http st) ∧
      lookupPending (httpSendRequest s req tok post b1 outcome).1.pending
        req.id = none) ∧
    (post = .ok st → statusIsSuccess st = true →
      (outcome = .fulfilled r →
        (httpSendRequest s req tok post b1 outcome).2.2 = .ok r) ∧
      (outcome = .senderDropped →
        (httpSendRequest s req tok post b1 outcome).2.2 =
          .error .connectionClosed) ∧
      (outcome = .timedOut →
        (httpSendRequest s req tok post b1 outcome).2.2 =
          .error .timeout)) := by
  refine ⟨?_, ?_, ?_, ?_, ?_⟩
  · cases post with
    | failed => simp [httpSendRequest, hc]
    | ok st' =>
      cases hst : statusIsSuccess st' with
      | false => simp [httpSendRequest, hc, hst]
      | true => cases outcome <;> simp [httpSendRequest, hc, hst]
  · cases post with
    | failed => simp [httpSendRequest, hc]
    | ok st' =>
      cases hst : statusIsSuccess st' with
      | false => simp [httpSendRequest, hc, hst]
      | true => cases outcome <;> simp [httpSendRequest, hc, hst]
  · rintro rfl
    simp [httpSendRequest, hc, lookupPending_removePending]
  · rintro rfl hst
    simp [httpSendRequest, hc, hst, lookupPending_removePending]
  · rintro rfl hst
    refine ⟨?_, ?_, ?_⟩ <;> rintro rfl <;> simp [httpSendRequest, hc, hst]

/-- Witness for C1 (amended) at the concrete connected transport, a
successful POST, and two distinct bodies. -/
theorem http_send_request_behavior_witness :
    (httpSendRequest httpConn pingReq 0 (.ok 200) "a" .timedOut).2.1 =
      [.insertSlot (.string "1"),
       .httpPost "http://x/mcp" [("Content-Type", "application/json")]
         (Json.render (JsonRpcMessage.toJson (.request pingReq)))] ∧
    httpSendRequest httpConn pingReq 0 (.ok 200) "a" .timedOut =
      httpSendRequest httpConn pingReq 0 (.ok 200) "b" .timedOut :=
  ⟨(http_send_request_behavior httpConn pingReq 0 (.ok 200) "a" "b"
      .timedOut pongResp 200 rfl).1,
   (http_send_request_behavior httpConn pingReq 0 (.ok 200) "a" "b"
      .timedOut pongResp 200 rfl).2.1⟩

/-! ### Claim C2 -/

/-- C2: a `StdioTransport::send_request` whose bounded wait expires
resolves to a Timeout failure, and the caller removes its id from the
outstanding table, so a response line with that id arriving afterwards
finds no slot: the reader drops it (logged) and delivers it to no
waiter, leaving the table unchanged. -/
theorem timeout_removes_slot (s : StdioState) (req : JsonRpcRequest)
    (tok : Token) (line : String) (r : JsonRpcResponse)
    (hc : s.connected = true) (ho : s.stdinOpen = true)
    (hline : fromStr line = some (.response r)) (hid : r.id = req.id) :
    (stdioSendRequest s req tok .timedOut).2.2 = .error .timeout ∧
    lookupPending (stdioSendRequest s req tok .timedOut).1.pending req.id =
      none ∧
    readerStep (stdioSendRequest s req tok .timedOut).1.pending line =
      ((stdioSendRequest s req tok .timedOut).1.pending, none) := by
  have hpend : (stdioSendRequest s req tok .timedOut).1.pending =
      removePending (insertPending s.pending req.id tok).1 req.id := by
    simp [stdioSendRequest, hc, ho]
  have hnone : lookupPending
      (stdioSendRequest s req tok .timedOut).1.pending req.id = none := by
    rw [hpend]; exact lookupPending_removePending _ _
  refine ⟨by simp [stdioSendRequest, hc, ho], hnone, ?_⟩
  unfold readerStep
  cases hb : startsWithBrace line with
  | false => simp
  | true => simp [hline, hid, hnone]

/-- Witness for C2: a timed-out ping over a running transport, followed
by the late arrival of the matching response line. -/
theorem timeout_removes_slot_witness :
    (stdioSendRequest stdioRunning pingReq 0 .timedOut).2.2 =
      .error .timeout ∧
    readerStep (stdioSendRequest stdioRunning pingReq 0 .timedOut).1.pending
        "\x7b\"jsonrpc\":\"2.0\",\"id\":\"1\",\"result\":5\x7d" =
      ((stdioSendRequest stdioRunning pingReq 0 .timedOut).1.pending,
       none) :=
  ⟨(timeout_removes_slot stdioRunning pingReq 0
      "\x7b\"jsonrpc\":\"2.0\",\"id\":\"1\",\"result\":5\x7d" pongResp
      rfl rfl (by rfl) rfl).1,
   (timeout_removes_slot stdioRunning pingReq 0
      "\x7b\"jsonrpc\":\"2.0\",\"id\":\"1\",\"result\":5\x7d" pongResp
      rfl rfl (by rfl) rfl).2.2⟩

/-! ### Claim C3 -/

/-- C3: `close` returns success on every state of either transport —
including a transport that was never successfully started — and, being a
total function, completes on every input; it clears the outstanding
table, dropping every pending sender, so a caller pending at that moment
observes a dropped sender and resolves to ConnectionClosed instead of
waiting forever (on either transport). -/
theorem close_always_succeeds (s : StdioState) (hs : HttpState)
    (s2 : StdioState) (s3 : HttpState) (req : JsonRpcRequest) (tok : Token)
    (body : String) (hc : s2.connected = true) (ho : s2.stdinOpen = true)
    (h3 : s3.connected = true) :
    (stdioClose s).2 = .ok () ∧ (stdioClose s).1.pending = [] ∧
    (httpClose hs).2 = .ok () ∧ (httpClose hs).1.pending = [] ∧
    (stdioSendRequest s2 req tok .senderDropped).2.2 =
      .error .connectionClosed ∧
    (httpSendRequest s3 req tok (.ok 200) body .senderDropped).2.2 =
      .error .connectionClosed := by
  refine ⟨rfl, rfl, rfl, rfl, ?_, ?_⟩
  · simp [stdioSendRequest, hc, ho]
  · simp [httpSendRequest, h3, statusIsSuccess]

/-- Witness for C3: closing a never-started transport and a running one,
and a pending ping unblocked by the close. -/
theorem close_always_succeeds_witness :
    (stdioClose stdioNew).2 = .ok () ∧
    (stdioSendRequest stdioRunning pingReq 0 .senderDropped).2.2 =
      .error .connectionClosed :=
  ⟨(close_always_succeeds stdioNew (httpNew "http://x/mcp") stdioRunning
      httpConn pingReq 0 "" rfl rfl rfl).1,
   (close_always_succeeds stdioNew (httpNew "http://x/mcp") stdioRunning
      httpConn pingReq 0 "" rfl rfl rfl).2.2.2.2.1⟩

/-! ### Claim C6 -/

/-- C6: in `StdioTransport::send_request` on a running transport the
completion slot is registered strictly before the request bytes are
written — the action trace is exactly the slot insertion followed by the
write — and between the two the table maps the request's id to this
caller's slot, so a response arriving immediately after the write finds
it registered and the reader delivers to precisely this caller. -/
theorem slot_registered_before_write (s : StdioState)
    (req : JsonRpcRequest) (tok : Token) (outcome : AwaitOutcome)
    (line : String) (r : JsonRpcResponse)
    (hc : s.connected = true) (ho : s.stdinOpen = true)
    (hb : startsWithBrace line = true)
    (hline : fromStr line = some (.response r)) (hid : r.id = req.id) :
    (stdioSendRequest s req tok outcome).2.1 =
      [.insertSlot req.id,
       .writeBytes
         (Json.render (JsonRpcMessage.toJson (.request req)) ++ "\n")] ∧
    lookupPending (insertPending s.pending req.id tok).1 req.id =
      some tok ∧
    readerStep (insertPending s.pending req.id tok).1 line =
      (removePending (insertPending s.pending req.id tok).1 req.id,
       some (tok, r)) := by
  refine ⟨?_, lookupPending_insertPending s.pending req.id tok, ?_⟩
  · cases outcome <;> simp [stdioSendRequest, hc, ho]
  · unfold readerStep
    simp [hb, hline, hid, lookupPending_insertPending]

/-- Witness for C6: a ping over a running transport, and the matching
response line delivered to its slot. -/
theorem slot_registered_before_write_witness :
    (stdioSendRequest stdioRunning pingReq 0 .timedOut).2.1 =
      [.insertSlot (.string "1"),
       .writeBytes
         (Json.render (JsonRpcMessage.toJson (.request pingReq)) ++ "\n")] ∧
    readerStep (insertPending stdioRunning.pending (RequestId.string "1")
        0).1 "\x7b\"jsonrpc\":\"2.0\",\"id\":\"1\",\"result\":5\x7d" =
      (removePending (insertPending stdioRunning.pending
          (RequestId.string "1") 0).1 (.string "1"),
       some (0, pongResp)) :=
  ⟨(slot_registered_before_write stdioRunning pingReq 0 .timedOut
      "\x7b\"jsonrpc\":\"2.0\",\"id\":\"1\",\"result\":5\x7d" pongResp
      rfl rfl rfl (by rfl) rfl).1,
   (slot_registered_before_write stdioRunning pingReq 0 .timedOut
      "\x7b\"jsonrpc\":\"2.0\",\"id\":\"1\",\"result\":5\x7d" pongResp
      rfl rfl rfl (by rfl) rfl).2.2⟩

/-! ### Claim C7 -/

/-- C7: every line that does not open a JSON object, and every line that
fails to parse as any envelope shape, is discarded by the reader with no
state change and no delivery — the step is a total function, so no line
raises an error — and a reader run over any interleaving of such noise
with other lines makes exactly the deliveries of the run over the
noise-free subsequence, to the same waiters, ending in the same table. -/
theorem reader_noise_tolerance :
    (∀ pending line, noiseLine line = true →
        readerStep pending line = (pending, none)) ∧
    (∀ pending lines, readerRun pending lines =
        readerRun pending (lines.filter (fun l => !noiseLine l))) := by
  have hstep : ∀ pending line, noiseLine line = true →
      readerStep pending line = (pending, none) := by
    intro pending line h
    simp only [noiseLine, Bool.or_eq_true, Bool.not_eq_true',
      Option.isNone_iff_eq_none] at h
    unfold readerStep
    rcases h with h | h
    · simp [h]
    · cases hb : startsWithBrace line with
      | false => simp
      | true => simp [h]
  refine ⟨hstep, ?_⟩
  intro pending lines
  induction lines generalizing pending with
  | nil => rfl
  | cons line rest ih =>
    cases hn : noiseLine line with
    | false =>
      simp only [List.filter_cons, hn, Bool.not_false, readerRun]
      rw [ih]
    | true =>
      simp only [List.filter_cons, hn, Bool.not_true, readerRun,
        hstep pending line hn]
      simpa using ih pending

/-- Witness for C7: a diagnostic log line and a braced but unparseable
line are both discarded from a table with one waiter. -/
theorem reader_noise_tolerance_witness :
    readerStep [(RequestId.string "1", 0)] "log: starting up" =
      ([(RequestId.string "1", 0)], none) ∧
    readerStep [(RequestId.string "1", 0)] "\x7bnot json\x7d" =
      ([(RequestId.string "1", 0)], none) :=
  ⟨reader_noise_tolerance.1 [(RequestId.string "1", 0)]
      "log: starting up" (by rfl),
   reader_noise_tolerance.1 [(RequestId.string "1", 0)]
      "\x7bnot json\x7d" (by rfl)⟩

/-! ### Claim C8 -/

/-- C8 counterexample: at a concrete transport, `start` with a
succeeding probe issues two GET exchanges — the endpoint probe and the
SSE connection — so its network-action trace is nonempty, and the
resulting state differs from the original in `sseActive` as well as in
`connected`; the claim that `start` performs no network activity and
flips only the ready flag is false of the code. -/
theorem http_start_counterexample :
    (httpStart (httpNew "http://x/mcp") (.ok 200)).2.1 =
      [.httpGet "http://x/mcp" [],
       .httpGet "http://x/mcp/sse"
         [("Accept", "text/event-stream"), ("Cache-Control", "no-cache")]] ∧
    (httpStart (httpNew "http://x/mcp") (.ok 200)).1.sseActive = true ∧
    (httpNew "http://x/mcp").sseActive = false := by
  refine ⟨rfl, rfl, rfl⟩

/-- C8 (amended): `start` issues one GET probe of the endpoint url; when
the probe's send fails, or it returns a non-success status, start
returns ConnectionFailed with the state untouched (still unconnected);
when the probe succeeds it additionally opens the SSE GET connection to
the sse endpoint with an `Accept: text/event-stream` header, and the
state changes exactly in `connected` and `sseActive`; in every case the
pending table and the endpoint urls are unmodified. -/
theorem http_start_behavior (s : HttpState) (st : Nat) :
    httpStart s .failed =
      (s, [.httpGet s.endpointUrl []],
       .error (.connectionFailed "Failed to connect")) ∧
    (statusIsSuccess st = false → httpStart s (.ok st) =
      (s, [.httpGet s.endpointUrl []],
       .error (.connectionFailed "Server returned status"))) ∧
    (statusIsSuccess st = true → httpStart s (.ok st) =
      ({ s with connected := true, sseActive := true },
       [.httpGet s.endpointUrl [],
        .httpGet s.sseEndpointUrl
          [("Accept", "text/event-stream"), ("Cache-Control", "no-cache")]],
       .ok ())) := by
  refine ⟨rfl, ?_, ?_⟩ <;> intro h <;> simp [httpStart, h]

/-- Witness for C8 (amended): the probe succeeding with 200 and failing
with 503 at a concrete transport. -/
theorem http_start_behavior_witness :
    httpStart (httpNew "http://x/mcp") (.ok 200) =
      ({ httpNew "http://x/mcp" with connected := true, sseActive := true },
       [.httpGet "http://x/mcp" [],
        .httpGet "http://x/mcp/sse"
          [("Accept", "text/event-stream"), ("Cache-Control", "no-cache")]],
       .ok ()) ∧
    httpStart (httpNew "http://x/mcp") (.ok 503) =
      (httpNew "http://x/mcp", [.httpGet "http://x/mcp" []],
       .error (.connectionFailed "Server returned status")) :=
  ⟨(http_start_behavior (httpNew "http://x/mcp") 200).2.2 rfl,
   (http_start_behavior (httpNew "http://x/mcp") 503).2.1 rfl⟩

/-! ### Claim C9 -/

/-- C9: on both transports, `send_request` and `send_notification`
called while the transport is not connected — before a successful start
or after close — fail the connected check first and return
ConnectionClosed with no bytes written, no HTTP exchange issued, and the
state, in particular the outstanding-request table, unchanged. -/
theorem not_connected_rejects (s : StdioState) (hs : HttpState)
    (req : JsonRpcRequest) (note : JsonRpcNotification) (tok : Token)
    (outcome : AwaitOutcome) (post : HttpOutcome) (body : String)
    (h1 : s.connected = false) (h2 : hs.connected = false) :
    stdioSendRequest s req tok outcome = (s, [], .error .connectionClosed) ∧
    stdioSendNotification s note = (s, [], .error .connectionClosed) ∧
    httpSendRequest hs req tok post body outcome =
      (hs, [], .error .connectionClosed) ∧
    httpSendNotification hs note post =
      (hs, [], .error .connectionClosed) := by
  refine ⟨?_, ?_, ?_, ?_⟩ <;>
    simp [stdioSendRequest, stdioSendNotification, httpSendRequest,
      httpSendNotification, h1, h2]

/-- Witness for C9: the four operations on freshly constructed (never
started) transports. -/
theorem not_connected_rejects_witness :
    stdioSendRequest stdioNew pingReq 0 .timedOut =
      (stdioNew, [], .error .connectionClosed) ∧
    httpSendRequest (httpNew "http://x/mcp") pingReq 0 (.ok 200) ""
        .timedOut =
      (httpNew "http://x/mcp", [], .error .connectionClosed) :=
  ⟨(not_connected_rejects stdioNew (httpNew "http://x/mcp") pingReq
      ⟨"2.0", "initialized", none⟩ 0 .timedOut (.ok 200) "" rfl rfl).1,
   (not_connected_rejects stdioNew (httpNew "http://x/mcp") pingReq
      ⟨"2.0", "initialized", none⟩ 0 .timedOut (.ok 200) "" rfl
      rfl).2.2.1⟩

/-! ### Claim C10 -/

/-- C10: the outstanding table holds at most one slot per id — its keys
stay distinct under insert and remove (and trivially under clear) — and
an insert on an id already outstanding replaces the old slot: the new
slot is the one found afterwards, the evicted sender is exactly the one
previously registered, and the earlier waiter, its sender now dropped
unfulfilled, resolves to ConnectionClosed on either transport rather
than receiving the response or hanging. -/
theorem single_slot_per_id (t : List (RequestId × Token)) (id : RequestId)
    (tok : Token) (s : StdioState) (s2 : HttpState) (req : JsonRpcRequest)
    (tok2 : Token) (body : String)
    (hnd : (pendingKeys t).Nodup) (hc : s.connected = true)
    (ho : s.stdinOpen = true) (h2 : s2.connected = true) :
    (pendingKeys (insertPending t id tok).1).Nodup ∧
    (pendingKeys (removePending t id)).Nodup ∧
    lookupPending (insertPending t id tok).1 id = some tok ∧
    (insertPending t id tok).2 = lookupPending t id ∧
    (stdioSendRequest s req tok2 .senderDropped).2.2 =
      .error .connectionClosed ∧
    (httpSendRequest s2 req tok2 (.ok 200) body .senderDropped).2.2 =
      .error .connectionClosed := by
  refine ⟨pendingKeys_insertPending_nodup t id tok hnd,
    pendingKeys_removePending_nodup t id hnd,
    lookupPending_insertPending t id tok, rfl, ?_, ?_⟩
  · simp [stdioSendRequest, hc, ho]
  · simp [httpSendRequest, h2, statusIsSuccess]

/-- Witness for C10: inserting a second slot for id "1" over an existing
one evicts the first, and the evicted waiter's call resolves to
ConnectionClosed. -/
theorem single_slot_per_id_witness :
    lookupPending (insertPending [(RequestId.string "1", 0)]
        (.string "1") 1).1 (.string "1") = some 1 ∧
    (insertPending [(RequestId.string "1", 0)] (.string "1") 1).2 =
      some 0 ∧
    (stdioSendRequest stdioRunning pingReq 0 .senderDropped).2.2 =
      .error .connectionClosed :=
  ⟨(single_slot_per_id [(RequestId.string "1", 0)] (.string "1") 1
      stdioRunning httpConn pingReq 0 "" (by decide) rfl rfl rfl).2.2.1,
   (single_slot_per_id [(RequestId.string "1", 0)] (.string "1") 1
      stdioRunning httpConn pingReq 0 "" (by decide) rfl rfl rfl).2.2.2.1,
   (single_slot_per_id [(RequestId.string "1", 0)] (.string "1") 1
      stdioRunning httpConn pingReq 0 "" (by decide) rfl rfl
      rfl).2.2.2.2.1⟩

end Goldentooth
